import Mathlib

/-!
Verification of the SSO credential-provider core (src/sso.rs).

The Rust source is shallowly embedded: pure logic becomes Lean functions,
and the effectful collaborators (filesystem reads, profile loading,
the remote role-credential exchange, the current time, the home
directory) become explicit parameters of those functions.  Machine
integers are modelled as Nat with explicit reduction modulo 2^32 where
the SHA-1 hash needs 32-bit wraparound; timestamps are modelled as Int
epoch values compared with the same at-or-before test the source uses.
-/

set_option autoImplicit false
set_option maxRecDepth 4096

/-- Mod base for 32-bit words used by the SHA-1 hash. -/
def w32 : Nat := 4294967296

/-- Rotate a 32-bit word left by s bits, as the sha1 crate does for the
message schedule and the round function. -/
def rotl32 (s x : Nat) : Nat :=
  (((x <<< s) % w32) ||| (x >>> (32 - s)))

/-- Big-endian assembly of up to four bytes into a word. -/
def bytesToWordBE (bs : List Nat) : Nat :=
  bs.foldl (fun acc b => acc * 256 + b) 0

/-- Big-endian split of a 32-bit word into four bytes. -/
def wordToBytesBE (w : Nat) : List Nat :=
  [(w >>> 24) % 256, (w >>> 16) % 256, (w >>> 8) % 256, w % 256]

/-- SHA-1 padding: append bit 1, zero bytes to 56 mod 64, and the
original length in bits as an 8-byte big-endian integer. -/
def sha1pad (msg : List Nat) : List Nat :=
  let len := msg.length
  let zeros := (56 + 64 - (len + 1) % 64) % 64
  let bitlen := len * 8
  msg ++ [128] ++ List.replicate zeros 0 ++
    [(bitlen >>> 56) % 256, (bitlen >>> 48) % 256, (bitlen >>> 40) % 256,
     (bitlen >>> 32) % 256, (bitlen >>> 24) % 256, (bitlen >>> 16) % 256,
     (bitlen >>> 8) % 256, bitlen % 256]

/-- Split a byte list into 64-byte blocks, with fuel for termination. -/
def chunksAux : Nat → List Nat → List (List Nat)
  | 0, _ => []
  | Nat.succ fuel, l =>
    if l.isEmpty then [] else l.take 64 :: chunksAux fuel (l.drop 64)

/-- Split a padded message into its 64-byte blocks. -/
def chunks64 (l : List Nat) : List (List Nat) :=
  chunksAux l.length l

/-- SHA-1 round function, by round index. -/
def sha1f (t b c d : Nat) : Nat :=
  if t < 20 then (b &&& c) ||| (((w32 - 1) ^^^ b) &&& d)
  else if t < 40 then (b ^^^ c) ^^^ d
  else if t < 60 then ((b &&& c) ||| (b &&& d)) ||| (c &&& d)
  else (b ^^^ c) ^^^ d

/-- SHA-1 round constant, by round index. -/
def sha1k (t : Nat) : Nat :=
  if t < 20 then 1518500249
  else if t < 40 then 1859775393
  else if t < 60 then 2400959708
  else 3395469782

/-- One SHA-1 round on the five-word working state. -/
def sha1round (w : Array Nat) (s : Nat × Nat × Nat × Nat × Nat) (t : Nat) :
    Nat × Nat × Nat × Nat × Nat :=
  let a := s.1
  let b := s.2.1
  let c := s.2.2.1
  let d := s.2.2.2.1
  let e := s.2.2.2.2
  let temp := (rotl32 5 a + sha1f t b c d + e + sha1k t + w[t]!) % w32
  (temp, a, rotl32 30 b, c, d)

/-- SHA-1 compression of one 64-byte block into the running state of
five words. -/
def sha1compress (h : List Nat) (block : List Nat) : List Nat :=
  let w0 : Array Nat :=
    ((List.range 16).map (fun i => bytesToWordBE ((block.drop (4 * i)).take 4))).toArray
  let w : Array Nat :=
    (List.range 64).foldl
      (fun w j =>
        let i := j + 16
        w.push (rotl32 1 (((w[i - 3]! ^^^ w[i - 8]!) ^^^ w[i - 14]!) ^^^ w[i - 16]!)))
      w0
  let h0 := h[0]!
  let h1 := h[1]!
  let h2 := h[2]!
  let h3 := h[3]!
  let h4 := h[4]!
  let s := (List.range 80).foldl (sha1round w) (h0, h1, h2, h3, h4)
  [(h0 + s.1) % w32, (h1 + s.2.1) % w32, (h2 + s.2.2.1) % w32,
   (h3 + s.2.2.2.1) % w32, (h4 + s.2.2.2.2) % w32]

/-- SHA-1 digest of a byte list, producing the 20 digest bytes.
Models the external sha1 crate used by get_cache_filename. -/
def sha1 (msg : List Nat) : List Nat :=
  let hfin :=
    (chunks64 (sha1pad msg)).foldl sha1compress
      [1732584193, 4023233417, 2562383102, 271733878, 3285377520]
  hfin.foldr (fun w acc => wordToBytesBE w ++ acc) []

/-- Lowercase hexadecimal digit for a value below 16. -/
def hexDigit (n : Nat) : Char :=
  if n < 10 then Char.ofNat (48 + n) else Char.ofNat (87 + n)

/-- Lowercase hexadecimal encoding of a byte list, as the hex crate
encodes the SHA-1 digest. -/
def hexEncode (bs : List Nat) : String :=
  String.mk (bs.foldr (fun b acc => hexDigit (b / 16) :: hexDigit (b % 16) :: acc) [])

/-- UTF-8 encoding of one character, as Nat byte values. -/
def utf8Bytes (c : Char) : List Nat :=
  let v := c.toNat
  if v < 128 then [v]
  else if v < 2048 then [192 + v / 64, 128 + v % 64]
  else if v < 65536 then [224 + v / 4096, 128 + (v / 64) % 64, 128 + v % 64]
  else [240 + v / 262144, 128 + (v / 4096) % 64, 128 + (v / 64) % 64, 128 + v % 64]

/-- UTF-8 bytes of a string, as Nat values. -/
def strBytes (s : String) : List Nat :=
  s.data.flatMap utf8Bytes

/-- Embeds get_cache_filename: the hex-encoded SHA-1 digest of the
UTF-8 bytes of the start URL, with the fixed extension ".json". -/
def get_cache_filename (start_url : String) : String :=
  hexEncode (sha1 (strBytes start_url)) ++ ".json"

/-- Embeds default_cache_location: the fixed cache directory beneath the
home directory.  The source unwraps the home directory from the
environment; here it is the explicit home parameter. -/
def default_cache_location (home : String) : String :=
  home ++ "/.aws/sso/cache"

/-- Full path of the token cache file for a start URL, as load_token_file
assembles it by pushing the cache filename onto the cache directory. -/
def cache_file_path (home : String) (start_url : String) : String :=
  default_cache_location home ++ "/" ++ get_cache_filename start_url

/-- Recognizer for lowercase hexadecimal characters, stated over the
character code: a decimal digit or one of the first six lowercase
letters. -/
def isLowerHexDigit (c : Char) : Bool :=
  (48 ≤ c.toNat && c.toNat ≤ 57) || (97 ≤ c.toNat && c.toNat ≤ 102)

/-- Known-answer check of the SHA-1 model against the standard test
vector for "abc". -/
theorem sha1_known_vector :
    hexEncode (sha1 (strBytes "abc")) = "a9993e364706816aba3e25717850c26c9cd0d89d" := by
  decide

/-- Embeds the SSOProviderError enum from src/sso.rs. -/
inductive SSOProviderError where
  | RequiredConfigMissing (field : String)
deriving DecidableEq, Repr

/-- Marker for a Rust computation that either panics or returns a value;
used to model the std error trait methods on SSOProviderError. -/
inductive PanicOr (A : Type) where
  | panicked
  | ok (a : A)
deriving DecidableEq, Repr

/-- Embeds the Display implementation for SSOProviderError: a total
format that writes the fixed message followed by the field name. -/
def SSOProviderError.display : SSOProviderError → PanicOr String
  | .RequiredConfigMissing field =>
    .ok ("SSOProviderError: Missing required config: " ++ field)

/-- Embeds the description method of the std error trait implementation
for SSOProviderError, whose body invokes the unimplemented macro and
therefore panics on every call. -/
def SSOProviderError.description (_e : SSOProviderError) : PanicOr String :=
  .panicked

/-- Embeds the source method of the std error trait implementation for
SSOProviderError, which always returns None. -/
def SSOProviderError.sourceErr (_e : SSOProviderError) : Option SSOProviderError :=
  none

/-- Transport-level failure of the remote SDK call, kept abstract as its
message. -/
abbrev SdkError : Type := String

/-- Embeds the CredentialsError variants this program constructs:
CredentialsNotLoaded, ProviderError wrapping the SDK failure, and
Unhandled wrapping an SSOProviderError. -/
inductive CredentialsError where
  | CredentialsNotLoaded
  | ProviderError (e : SdkError)
  | Unhandled (e : SSOProviderError)
deriving DecidableEq, Repr

/-- Embeds the CachedSSOToken structure deserialized from the cache
file.  The expires_at instant is an Int epoch value; comparisons use
the same at-or-before test as the DateTime comparison in the source. -/
structure CachedSSOToken where
  access_token : String
  expires_at : Int
  region : String
  start_url : String
deriving DecidableEq, Repr

/-- Embeds the SSOConfig structure of the four profile values. -/
structure SSOConfig where
  sso_account_id : String
  sso_role_name : String
  sso_region : String
  sso_start_url : String
deriving DecidableEq, Repr

/-- Embeds the SSOProviderState behind the provider mutex. -/
structure SSOProviderState where
  sso_config : Option SSOConfig
  cached_token : Option CachedSSOToken
deriving DecidableEq, Repr

/-- Embeds the role_credentials payload of the exchange response, with
each credential field optional and the expiration in epoch seconds. -/
structure RoleCredentials where
  access_key_id : Option String
  secret_access_key : Option String
  session_token : Option String
  expiration : Int
deriving DecidableEq, Repr

/-- Embeds the aws Credentials value built by Credentials::new: key id,
secret, optional session token, optional expiration instant modelled
as whole seconds with a subsecond part, and the provider name. -/
structure Credentials where
  access_key_id : String
  secret_access_key : String
  session_token : Option String
  expiry : Option (Int × Nat)
  provider_name : String
deriving DecidableEq, Repr

/-- Constructor mirroring Credentials::new argument order. -/
def Credentials.new (akid secret : String) (session : Option String)
    (expiry : Option (Int × Nat)) (provider : String) : Credentials :=
  ⟨akid, secret, session, expiry, provider⟩

/-- Profile set abstraction for the external aws_config profile loader:
a key-value list queried by get, empty when it has no entries. -/
structure ProfileSet where
  entries : List (String × String)
deriving DecidableEq, Repr

/-- Embeds ProfileSet::get as first-match lookup of a key. -/
def ProfileSet.get (ps : ProfileSet) (key : String) : Option String :=
  (ps.entries.find? (fun p => p.1 == key)).map (fun p => p.2)

/-- Embeds ProfileSet::is_empty. -/
def ProfileSet.is_empty (ps : ProfileSet) : Bool :=
  ps.entries.isEmpty

/-- Embeds load_sso_config from src/sso.rs.  The external profile load
is the profileLoad parameter: none when loading fails, some when it
yields a profile set.  Nested presence checks on the four keys in
source order; any absence yields CredentialsNotLoaded. -/
def load_sso_config (profileLoad : Option ProfileSet) :
    Except CredentialsError SSOConfig :=
  match profileLoad with
  | none => .error .CredentialsNotLoaded
  | some profile_set =>
    if profile_set.is_empty then .error .CredentialsNotLoaded
    else
      match profile_set.get "sso_account_id" with
      | none => .error .CredentialsNotLoaded
      | some sso_account_id =>
        match profile_set.get "sso_role_name" with
        | none => .error .CredentialsNotLoaded
        | some sso_role_name =>
          match profile_set.get "sso_region" with
          | none => .error .CredentialsNotLoaded
          | some sso_region =>
            match profile_set.get "sso_start_url" with
            | none => .error .CredentialsNotLoaded
            | some sso_start_url =>
              .ok ⟨sso_account_id, sso_role_name, sso_region, sso_start_url⟩

/-- Embeds load_token_file from src/sso.rs.  The filesystem read is the
fs parameter (path to optional contents, the ok of read_to_string) and
JSON deserialization is the parse parameter (the ok of serde_json).
The and_then chain drops a parsed token whose access_token is empty,
then one whose expires_at is at or before now. -/
def load_token_file (home : String) (fs : String → Option String)
    (parse : String → Option CachedSSOToken) (now : Int)
    (start_url : String) : Option CachedSSOToken :=
  (((fs (cache_file_path home start_url)).bind parse).bind
      (fun cached_token =>
        if cached_token.access_token.isEmpty then none else some cached_token)).bind
    (fun cached_token =>
      if cached_token.expires_at ≤ now then none else some cached_token)

/-- Embeds the re-validation step of do_provider_credentials: a held
token whose expires_at is at or before now is dropped. -/
def revalidate_cached_token (now : Int) :
    Option CachedSSOToken → Option CachedSSOToken
  | some token => if token.expires_at ≤ now then none else some token
  | none => none

/-- Embeds the mapping of the exchange response in
do_provider_credentials: a transport error becomes ProviderError; an
absent role_credentials payload becomes CredentialsNotLoaded; a payload
is validated field by field in source order, each absence becoming an
Unhandled RequiredConfigMissing naming that field; a complete payload
becomes a credential with the epoch-seconds expiration at subsecond
zero and provider name "sso". -/
def map_role_credentials (resp : Except SdkError (Option RoleCredentials)) :
    Except CredentialsError Credentials :=
  match resp with
  | .error e => .error (.ProviderError e)
  | .ok none => .error .CredentialsNotLoaded
  | .ok (some role_credentials) =>
    match role_credentials.access_key_id with
    | none => .error (.Unhandled (.RequiredConfigMissing "access_key_id"))
    | some akid =>
      match role_credentials.secret_access_key with
      | none => .error (.Unhandled (.RequiredConfigMissing "secret_access_key"))
      | some secret =>
        match role_credentials.session_token with
        | none => .error (.Unhandled (.RequiredConfigMissing "session_token"))
        | some session =>
          .ok (Credentials.new akid secret (some session)
            (some (role_credentials.expiration, 0)) "sso")

/-- Decidable equality for Except results, used to evaluate outcomes on
concrete inputs. -/
instance exceptDecEq {E A : Type} [DecidableEq E] [DecidableEq A] :
    DecidableEq (Except E A) := fun
  | .error e, .error f =>
    if h : e = f then .isTrue (by rw [h]) else .isFalse (by simp [h])
  | .error _, .ok _ => .isFalse (by simp)
  | .ok _, .error _ => .isFalse (by simp)
  | .ok a, .ok b =>
    if h : a = b then .isTrue (by rw [h]) else .isFalse (by simp [h])

/-- Outcome of one provider call: the state left behind the mutex and
the returned result. -/
structure ProviderOutcome where
  state : SSOProviderState
  result : Except CredentialsError Credentials
deriving DecidableEq, Repr

/-- Embeds do_provider_credentials from src/sso.rs as a function of the
locked state and the effect parameters: now (Utc::now), profileLoad
(the profile loader consulted by load_sso_config), home, fs and parse
(consulted by load_token_file), and send (the get_role_credentials
call, taking region, account id, role name and access token).  Config
is loaded only when absent and stored; a held expired token is dropped;
an absent token is reloaded from disk; with still no token the call
fails with CredentialsNotLoaded before any send; otherwise the send
result is mapped to the final credential or error. -/
def do_provider_credentials (state0 : SSOProviderState) (now : Int)
    (profileLoad : Option ProfileSet) (home : String)
    (fs : String → Option String) (parse : String → Option CachedSSOToken)
    (send : String → String → String → String →
      Except SdkError (Option RoleCredentials)) : ProviderOutcome :=
  let configRes : Except CredentialsError SSOConfig :=
    match state0.sso_config with
    | some c => .ok c
    | none => load_sso_config profileLoad
  match configRes with
  | .error e => ⟨state0, .error e⟩
  | .ok cfg =>
    let token1 := revalidate_cached_token now state0.cached_token
    let token2 :=
      match token1 with
      | none => load_token_file home fs parse now cfg.sso_start_url
      | some t => some t
    match token2 with
    | none => ⟨⟨some cfg, none⟩, .error .CredentialsNotLoaded⟩
    | some token =>
      ⟨⟨some cfg, some token⟩,
        map_role_credentials
          (send cfg.sso_region cfg.sso_account_id cfg.sso_role_name
            token.access_token)⟩

/-- A compressed state always has exactly five words. -/
theorem sha1compress_length (h block : List Nat) :
    (sha1compress h block).length = 5 := rfl

/-- Folding the compression over any block list preserves the five-word
state length. -/
theorem sha1fold_length (blocks : List (List Nat)) (h : List Nat) :
    (blocks.foldl sha1compress h).length = 5 ∨ blocks = [] := by
  induction blocks generalizing h with
  | nil => exact Or.inr rfl
  | cons b bs ih =>
    left
    rcases ih (sha1compress h b) with hl | hnil
    · simpa using hl
    · simpa [hnil] using sha1compress_length h b

/-- The SHA-1 digest always has exactly twenty bytes. -/
theorem sha1_length (msg : List Nat) : (sha1 msg).length = 20 := by
  unfold sha1
  have hfive :
      ((chunks64 (sha1pad msg)).foldl sha1compress
        [1732584193, 4023233417, 2562383102, 271733878, 3285377520]).length = 5 := by
    rcases sha1fold_length (chunks64 (sha1pad msg))
        [1732584193, 4023233417, 2562383102, 271733878, 3285377520] with hl | hnil
    · exact hl
    · simp [hnil]
  generalize hh :
      (chunks64 (sha1pad msg)).foldl sha1compress
        [1732584193, 4023233417, 2562383102, 271733878, 3285377520] = l at hfive ⊢
  match l, hfive with
  | [a, b, c, d, e], _ => rfl

/-- Every byte produced by the big-endian word split is below 256. -/
theorem wordToBytesBE_lt (w : Nat) : ∀ b ∈ wordToBytesBE w, b < 256 := by
  intro b hb
  simp [wordToBytesBE] at hb
  rcases hb with rfl | rfl | rfl | rfl <;> omega

/-- Every byte of a SHA-1 digest is below 256. -/
theorem sha1_bytes_lt (msg : List Nat) : ∀ b ∈ sha1 msg, b < 256 := by
  unfold sha1
  generalize ((chunks64 (sha1pad msg)).foldl sha1compress
    [1732584193, 4023233417, 2562383102, 271733878, 3285377520]) = l
  induction l with
  | nil => simp
  | cons w ws ih =>
    intro b hb
    simp at hb
    rcases hb with hw | hws
    · exact wordToBytesBE_lt w b hw
    · exact ih b hws

/-- Hexadecimal digits of values below 16 are lowercase hex characters. -/
theorem hexDigit_mem (n : Nat) (h : n < 16) :
    isLowerHexDigit (hexDigit n) = true := by
  interval_cases n <;> decide

/-- The hex encoding of a byte list has two characters per byte. -/
theorem hexEncode_length (bs : List Nat) :
    (hexEncode bs).length = 2 * bs.length := by
  unfold hexEncode
  show (List.foldr (fun b acc => hexDigit (b / 16) :: hexDigit (b % 16) :: acc) [] bs).length
    = 2 * bs.length
  induction bs with
  | nil => rfl
  | cons b bs ih => simp [ih]; omega

/-- Every character of the hex encoding of bytes below 256 is a
lowercase hex character. -/
theorem hexEncode_chars (bs : List Nat) (hbs : ∀ b ∈ bs, b < 256) :
    ∀ c ∈ (hexEncode bs).data, isLowerHexDigit c = true := by
  unfold hexEncode
  show ∀ c ∈ List.foldr (fun b acc => hexDigit (b / 16) :: hexDigit (b % 16) :: acc) [] bs,
    isLowerHexDigit c = true
  induction bs with
  | nil => simp
  | cons b bs ih =>
    intro c hc
    have hb : b < 256 := hbs b (by simp)
    simp at hc
    rcases hc with rfl | rfl | hc
    · exact hexDigit_mem _ (by omega)
    · exact hexDigit_mem _ (by omega)
    · exact ih (fun x hx => hbs x (by simp [hx])) c hc

/-- C1: the expiration check is at-or-before: a token whose expires_at is
strictly after now is accepted, one whose expires_at is at or before now
is rejected, both when load_token_file loads a token from disk and when
the provider re-validates a token already held in its state. -/
theorem claim_C1_expiration_boundary (home : String) (fs : String → Option String)
    (parse : String → Option CachedSSOToken) (now : Int) (url contents : String)
    (t : CachedSSOToken)
    (hfs : fs (cache_file_path home url) = some contents)
    (hparse : parse contents = some t)
    (hne : t.access_token.isEmpty = false) :
    (now < t.expires_at →
      load_token_file home fs parse now url = some t
      ∧ revalidate_cached_token now (some t) = some t)
    ∧ (t.expires_at ≤ now →
      load_token_file home fs parse now url = none
      ∧ revalidate_cached_token now (some t) = none) := by
  constructor
  · intro h
    have hnle : ¬ t.expires_at ≤ now := not_le.mpr h
    exact ⟨by simp [load_token_file, hfs, hparse, hne, hnle],
      by simp [revalidate_cached_token, hnle]⟩
  · intro h
    exact ⟨by simp [load_token_file, hfs, hparse, hne, h],
      by simp [revalidate_cached_token, h]⟩

/-- Witness for C1 at a concrete token expiring at 100: accepted at
now = 99, rejected at now = 100 in both places. -/
theorem claim_C1_expiration_boundary_witness :
    load_token_file "/h" (fun _ => some "c")
      (fun _ => some ⟨"tok", 100, "r", "u"⟩) 99 "u" = some ⟨"tok", 100, "r", "u"⟩
    ∧ load_token_file "/h" (fun _ => some "c")
      (fun _ => some ⟨"tok", 100, "r", "u"⟩) 100 "u" = none
    ∧ revalidate_cached_token 100 (some ⟨"tok", 100, "r", "u"⟩) = none :=
  ⟨((claim_C1_expiration_boundary "/h" (fun _ => some "c")
      (fun _ => some ⟨"tok", 100, "r", "u"⟩) 99 "u" "c" ⟨"tok", 100, "r", "u"⟩
      rfl rfl rfl).1 (by decide)).1,
   ((claim_C1_expiration_boundary "/h" (fun _ => some "c")
      (fun _ => some ⟨"tok", 100, "r", "u"⟩) 100 "u" "c" ⟨"tok", 100, "r", "u"⟩
      rfl rfl rfl).2 (by decide)).1,
   ((claim_C1_expiration_boundary "/h" (fun _ => some "c")
      (fun _ => some ⟨"tok", 100, "r", "u"⟩) 100 "u" "c" ⟨"tok", 100, "r", "u"⟩
      rfl rfl rfl).2 (by decide)).2⟩

/-- C6: a parsed cached token whose access_token string is empty is
dropped by load_token_file regardless of its expiration time, including
tokens whose expires_at is strictly in the future. -/
theorem claim_C6_empty_token_rejected (home : String) (fs : String → Option String)
    (parse : String → Option CachedSSOToken) (now : Int) (url contents : String)
    (t : CachedSSOToken)
    (hfs : fs (cache_file_path home url) = some contents)
    (hparse : parse contents = some t)
    (hempty : t.access_token = "") :
    load_token_file home fs parse now url = none := by
  simp [load_token_file, hfs, hparse, hempty, String.isEmpty]

/-- Witness for C6: an empty token expiring far in the future (at 1000,
with now = 0) is still rejected. -/
theorem claim_C6_empty_token_rejected_witness :
    load_token_file "/h" (fun _ => some "c")
      (fun _ => some ⟨"", 1000, "r", "u"⟩) 0 "u" = none :=
  claim_C6_empty_token_rejected "/h" (fun _ => some "c")
    (fun _ => some ⟨"", 1000, "r", "u"⟩) 0 "u" "c" ⟨"", 1000, "r", "u"⟩ rfl rfl rfl

/-- C7: load_token_file never surfaces an error: its Option result is
either a valid token (nonempty access_token, expires_at strictly after
now) or none, and a missing file, unparsable contents, an empty access
token, and an expired token all collapse indistinguishably to none. -/
theorem claim_C7_reader_never_errors (home : String) (fs : String → Option String)
    (parse : String → Option CachedSSOToken) (now : Int) (url : String) :
    (load_token_file home fs parse now url = none
      ∨ ∃ t, load_token_file home fs parse now url = some t
          ∧ t.access_token.isEmpty = false ∧ now < t.expires_at)
    ∧ (fs (cache_file_path home url) = none →
        load_token_file home fs parse now url = none)
    ∧ (∀ contents, fs (cache_file_path home url) = some contents →
        parse contents = none → load_token_file home fs parse now url = none)
    ∧ (∀ contents t, fs (cache_file_path home url) = some contents →
        parse contents = some t → t.access_token = "" →
        load_token_file home fs parse now url = none)
    ∧ (∀ contents t, fs (cache_file_path home url) = some contents →
        parse contents = some t → t.expires_at ≤ now →
        load_token_file home fs parse now url = none) := by
  refine ⟨?_, ?_, ?_, ?_, ?_⟩
  · cases hfs : fs (cache_file_path home url) with
    | none => left; simp [load_token_file, hfs]
    | some contents =>
      cases hparse : parse contents with
      | none => left; simp [load_token_file, hfs, hparse]
      | some t =>
        by_cases hne : t.access_token.isEmpty
        · left; simp [load_token_file, hfs, hparse, hne]
        · by_cases hexp : t.expires_at ≤ now
          · left; simp [load_token_file, hfs, hparse, hne, hexp]
          · right
            exact ⟨t, by simp [load_token_file, hfs, hparse, hne, hexp],
              by simpa using hne, not_le.mp hexp⟩
  · intro hfs; simp [load_token_file, hfs]
  · intro contents hfs hparse; simp [load_token_file, hfs, hparse]
  · intro contents t hfs hparse hempty
    simp [load_token_file, hfs, hparse, hempty, String.isEmpty]
  · intro contents t hfs hparse hexp
    by_cases hne : t.access_token.isEmpty <;>
      simp [load_token_file, hfs, hparse, hne, hexp]

/-- Witness for C7: the missing-file, unparsable, empty-token and
expired cases all evaluate to none at concrete inputs. -/
theorem claim_C7_reader_never_errors_witness :
    load_token_file "/h" (fun _ => none) (fun _ => none) 0 "u" = none
    ∧ load_token_file "/h" (fun _ => some "bad") (fun _ => none) 0 "u" = none
    ∧ load_token_file "/h" (fun _ => some "c")
        (fun _ => some ⟨"", 7, "r", "u"⟩) 0 "u" = none
    ∧ load_token_file "/h" (fun _ => some "c")
        (fun _ => some ⟨"tok", 0, "r", "u"⟩) 7 "u" = none :=
  ⟨(claim_C7_reader_never_errors "/h" _ _ 0 "u").2.1 rfl,
   (claim_C7_reader_never_errors "/h" _ _ 0 "u").2.2.1 "bad" rfl rfl,
   (claim_C7_reader_never_errors "/h" _ _ 0 "u").2.2.2.1 "c" ⟨"", 7, "r", "u"⟩ rfl rfl rfl,
   (claim_C7_reader_never_errors "/h" _ _ 7 "u").2.2.2.2 "c" ⟨"tok", 0, "r", "u"⟩
     rfl rfl (by decide)⟩

/-- C10: the std error trait description method on every SSOProviderError
value panics, while Display formatting is total and always returns a
string. -/
theorem claim_C10_description_panics :
    ∀ e : SSOProviderError,
      SSOProviderError.description e = PanicOr.panicked
      ∧ ∃ s, SSOProviderError.display e = PanicOr.ok s := by
  intro e
  cases e with
  | RequiredConfigMissing field => exact ⟨rfl, _, rfl⟩

/-- C5: the token cache file path is the deterministic function
<home>/.aws/sso/cache/<hex(sha1(utf8 bytes of start_url))>.json: the
same URL always yields the same filename, and the filename is the
lowercase hex encoding (40 hex characters) of the SHA-1 digest of the
UTF-8 bytes of the URL with the fixed extension ".json". -/
theorem claim_C5_cache_filename (url home : String) :
    cache_file_path home url
      = home ++ "/.aws/sso/cache/" ++ (hexEncode (sha1 (strBytes url)) ++ ".json")
    ∧ get_cache_filename url = hexEncode (sha1 (strBytes url)) ++ ".json"
    ∧ (∀ url', url = url' → get_cache_filename url = get_cache_filename url')
    ∧ (hexEncode (sha1 (strBytes url))).length = 40
    ∧ (∀ c ∈ (hexEncode (sha1 (strBytes url))).data,
        isLowerHexDigit c = true) := by
  refine ⟨?_, rfl, fun url' h => by rw [h], ?_,
    hexEncode_chars _ (sha1_bytes_lt _)⟩
  · show home ++ "/.aws/sso/cache" ++ "/" ++ (hexEncode (sha1 (strBytes url)) ++ ".json")
      = home ++ "/.aws/sso/cache/" ++ (hexEncode (sha1 (strBytes url)) ++ ".json")
    rw [String.append_assoc home "/.aws/sso/cache" "/",
      show ("/.aws/sso/cache" : String) ++ "/" = "/.aws/sso/cache/" from by decide]
  · rw [hexEncode_length, sha1_length]

/-- Witness for C5 at a concrete start URL and home directory, with the
inner determinism hypothesis discharged by reflexivity and the full
path evaluated concretely. -/
theorem claim_C5_cache_filename_witness :
    cache_file_path "/home/user" "https://my-sso-portal.awsapps.com/start"
      = "/home/user" ++ "/.aws/sso/cache/"
        ++ (hexEncode (sha1 (strBytes "https://my-sso-portal.awsapps.com/start")) ++ ".json")
    ∧ get_cache_filename "https://my-sso-portal.awsapps.com/start"
      = get_cache_filename "https://my-sso-portal.awsapps.com/start"
    ∧ cache_file_path "/home/user" "https://my-sso-portal.awsapps.com/start"
      = "/home/user/.aws/sso/cache/c7aaaf71fcc8777ae2475525ed049d39fe16c484.json" :=
  ⟨(claim_C5_cache_filename "https://my-sso-portal.awsapps.com/start" "/home/user").1,
   (claim_C5_cache_filename "https://my-sso-portal.awsapps.com/start" "/home/user").2.2.1
     "https://my-sso-portal.awsapps.com/start" rfl,
   by decide⟩

/-- Every error load_sso_config produces is CredentialsNotLoaded. -/
theorem load_sso_config_error_shape (profileLoad : Option ProfileSet) :
    ∀ e, load_sso_config profileLoad = .error e → e = .CredentialsNotLoaded := by
  intro e he
  cases profileLoad with
  | none =>
    simp [load_sso_config] at he
    exact he.symm
  | some ps =>
    by_cases hemp : ps.is_empty <;>
      cases h1 : ps.get "sso_account_id" <;>
      cases h2 : ps.get "sso_role_name" <;>
      cases h3 : ps.get "sso_region" <;>
      cases h4 : ps.get "sso_start_url" <;>
      simp_all [load_sso_config]

/-- load_sso_config fails exactly when the profile set is absent, empty,
or lacks one of the four keys. -/
theorem load_sso_config_error_iff (profileLoad : Option ProfileSet) :
    load_sso_config profileLoad = .error .CredentialsNotLoaded ↔
      profileLoad = none
      ∨ ∃ ps, profileLoad = some ps
          ∧ (ps.is_empty = true
            ∨ ps.get "sso_account_id" = none
            ∨ ps.get "sso_role_name" = none
            ∨ ps.get "sso_region" = none
            ∨ ps.get "sso_start_url" = none) := by
  cases profileLoad with
  | none => simp [load_sso_config]
  | some ps =>
    by_cases hemp : ps.is_empty <;>
      cases h1 : ps.get "sso_account_id" <;>
      cases h2 : ps.get "sso_role_name" <;>
      cases h3 : ps.get "sso_region" <;>
      cases h4 : ps.get "sso_start_url" <;>
      simp_all [load_sso_config]

/-- load_sso_config succeeds exactly when all four keys are present in a
nonempty profile set, and then carries exactly the looked-up values. -/
theorem load_sso_config_ok_iff (profileLoad : Option ProfileSet) (cfg : SSOConfig) :
    load_sso_config profileLoad = .ok cfg ↔
      ∃ ps, profileLoad = some ps ∧ ps.is_empty = false
        ∧ ps.get "sso_account_id" = some cfg.sso_account_id
        ∧ ps.get "sso_role_name" = some cfg.sso_role_name
        ∧ ps.get "sso_region" = some cfg.sso_region
        ∧ ps.get "sso_start_url" = some cfg.sso_start_url := by
  constructor
  · intro h
    cases profileLoad with
    | none => simp [load_sso_config] at h
    | some ps =>
      by_cases hemp : ps.is_empty
      · simp [load_sso_config, hemp] at h
      · cases h1 : ps.get "sso_account_id" with
        | none => simp [load_sso_config, hemp, h1] at h
        | some a =>
          cases h2 : ps.get "sso_role_name" with
          | none => simp [load_sso_config, hemp, h1, h2] at h
          | some r =>
            cases h3 : ps.get "sso_region" with
            | none => simp [load_sso_config, hemp, h1, h2, h3] at h
            | some g =>
              cases h4 : ps.get "sso_start_url" with
              | none => simp [load_sso_config, hemp, h1, h2, h3, h4] at h
              | some u =>
                have hok : Except.ok (ε := CredentialsError) (⟨a, r, g, u⟩ : SSOConfig)
                    = Except.ok cfg := by
                  rw [← h]
                  simp [load_sso_config, hemp, h1, h2, h3, h4]
                injection hok with h5
                subst h5
                exact ⟨ps, rfl, by simpa using hemp, h1, h2, h3, h4⟩
  · rintro ⟨ps, rfl, hemp, ha, hb, hc, hd⟩
    simp [load_sso_config, hemp, ha, hb, hc, hd]

/-- C3: load_sso_config fails with CredentialsNotLoaded exactly when the
profile set cannot be loaded, is empty, or lacks one of the four keys
sso_account_id, sso_role_name, sso_region, sso_start_url; every failure
is CredentialsNotLoaded; and success returns an SSOConfig carrying
exactly the four looked-up values, only when all four keys are present
in a nonempty profile set. -/
theorem claim_C3_config_loading (profileLoad : Option ProfileSet) :
    (∀ e, load_sso_config profileLoad = .error e → e = .CredentialsNotLoaded)
    ∧ (load_sso_config profileLoad = .error .CredentialsNotLoaded ↔
        profileLoad = none
        ∨ ∃ ps, profileLoad = some ps
            ∧ (ps.is_empty = true
              ∨ ps.get "sso_account_id" = none
              ∨ ps.get "sso_role_name" = none
              ∨ ps.get "sso_region" = none
              ∨ ps.get "sso_start_url" = none))
    ∧ (∀ cfg, load_sso_config profileLoad = .ok cfg ↔
        ∃ ps, profileLoad = some ps ∧ ps.is_empty = false
          ∧ ps.get "sso_account_id" = some cfg.sso_account_id
          ∧ ps.get "sso_role_name" = some cfg.sso_role_name
          ∧ ps.get "sso_region" = some cfg.sso_region
          ∧ ps.get "sso_start_url" = some cfg.sso_start_url) :=
  ⟨load_sso_config_error_shape profileLoad,
   load_sso_config_error_iff profileLoad,
   fun cfg => load_sso_config_ok_iff profileLoad cfg⟩

/-- Witness for C3: a profile set holding all four keys loads the exact
config, and an unloadable profile set fails with CredentialsNotLoaded. -/
theorem claim_C3_config_loading_witness :
    load_sso_config (some ⟨[("sso_account_id", "123456789012"),
        ("sso_role_name", "Admin"), ("sso_region", "us-east-1"),
        ("sso_start_url", "https://my-sso-portal.awsapps.com/start")]⟩)
      = .ok ⟨"123456789012", "Admin", "us-east-1",
          "https://my-sso-portal.awsapps.com/start"⟩
    ∧ load_sso_config none = .error .CredentialsNotLoaded :=
  ⟨((claim_C3_config_loading (some ⟨[("sso_account_id", "123456789012"),
        ("sso_role_name", "Admin"), ("sso_region", "us-east-1"),
        ("sso_start_url", "https://my-sso-portal.awsapps.com/start")]⟩)).2.2
      ⟨"123456789012", "Admin", "us-east-1",
        "https://my-sso-portal.awsapps.com/start"⟩).mpr
      ⟨⟨[("sso_account_id", "123456789012"), ("sso_role_name", "Admin"),
        ("sso_region", "us-east-1"),
        ("sso_start_url", "https://my-sso-portal.awsapps.com/start")]⟩,
        rfl, rfl, rfl, rfl, rfl, rfl⟩,
   (claim_C3_config_loading none).2.1.mpr (Or.inl rfl)⟩

/-- With config present and a fresh cached token held, a provider call
keeps its state and maps the send result. -/
theorem do_provider_credentials_fresh (state0 : SSOProviderState) (now : Int)
    (profileLoad : Option ProfileSet) (home : String) (fs : String → Option String)
    (parse : String → Option CachedSSOToken)
    (send : String → String → String → String → Except SdkError (Option RoleCredentials))
    (cfg : SSOConfig) (t : CachedSSOToken)
    (hcfg : state0.sso_config = some cfg) (htok : state0.cached_token = some t)
    (hfresh : now < t.expires_at) :
    do_provider_credentials state0 now profileLoad home fs parse send
      = ⟨⟨some cfg, some t⟩,
        map_role_credentials (send cfg.sso_region cfg.sso_account_id
          cfg.sso_role_name t.access_token)⟩ := by
  have hnle : ¬ t.expires_at ≤ now := not_le.mpr hfresh
  simp [do_provider_credentials, hcfg, htok, revalidate_cached_token, hnle]

/-- With config available but no valid token after re-validation and
reload both fail, a provider call is CredentialsNotLoaded. -/
theorem do_provider_credentials_no_token (state0 : SSOProviderState) (now : Int)
    (profileLoad : Option ProfileSet) (home : String) (fs : String → Option String)
    (parse : String → Option CachedSSOToken)
    (send : String → String → String → String → Except SdkError (Option RoleCredentials))
    (cfg : SSOConfig)
    (hcfg : state0.sso_config = some cfg
      ∨ state0.sso_config = none ∧ load_sso_config profileLoad = .ok cfg)
    (hreval : revalidate_cached_token now state0.cached_token = none)
    (hload : load_token_file home fs parse now cfg.sso_start_url = none) :
    do_provider_credentials state0 now profileLoad home fs parse send
      = ⟨⟨some cfg, none⟩, .error .CredentialsNotLoaded⟩ := by
  rcases hcfg with hcfg | ⟨hnone, hloadcfg⟩
  · simp [do_provider_credentials, hcfg, hreval, hload]
  · simp [do_provider_credentials, hnone, hloadcfg, hreval, hload]

/-- C2: when the exchange succeeds at the transport level under a valid
config and fresh token, an absent role-credentials payload yields
CredentialsNotLoaded, and a payload missing access key id, secret
access key, or session token yields an Unhandled RequiredConfigMissing
naming exactly the first missing field in that order, with later fields
unconstrained and hence not validated. -/
theorem claim_C2_exchange_field_validation (state0 : SSOProviderState) (now : Int)
    (profileLoad : Option ProfileSet) (home : String) (fs : String → Option String)
    (parse : String → Option CachedSSOToken)
    (send : String → String → String → String → Except SdkError (Option RoleCredentials))
    (cfg : SSOConfig) (t : CachedSSOToken)
    (hcfg : state0.sso_config = some cfg) (htok : state0.cached_token = some t)
    (hfresh : now < t.expires_at) :
    (send cfg.sso_region cfg.sso_account_id cfg.sso_role_name t.access_token = .ok none →
      (do_provider_credentials state0 now profileLoad home fs parse send).result
        = .error .CredentialsNotLoaded)
    ∧ (∀ rc, send cfg.sso_region cfg.sso_account_id cfg.sso_role_name t.access_token
          = .ok (some rc) →
        rc.access_key_id = none →
        (do_provider_credentials state0 now profileLoad home fs parse send).result
          = .error (.Unhandled (.RequiredConfigMissing "access_key_id")))
    ∧ (∀ rc akid, send cfg.sso_region cfg.sso_account_id cfg.sso_role_name t.access_token
          = .ok (some rc) →
        rc.access_key_id = some akid → rc.secret_access_key = none →
        (do_provider_credentials state0 now profileLoad home fs parse send).result
          = .error (.Unhandled (.RequiredConfigMissing "secret_access_key")))
    ∧ (∀ rc akid sak, send cfg.sso_region cfg.sso_account_id cfg.sso_role_name t.access_token
          = .ok (some rc) →
        rc.access_key_id = some akid → rc.secret_access_key = some sak →
        rc.session_token = none →
        (do_provider_credentials state0 now profileLoad home fs parse send).result
          = .error (.Unhandled (.RequiredConfigMissing "session_token"))) := by
  refine ⟨?_, ?_, ?_, ?_⟩
  · intro hsend
    rw [do_provider_credentials_fresh state0 now profileLoad home fs parse send cfg t
      hcfg htok hfresh]
    simp [map_role_credentials, hsend]
  · intro rc hsend hak
    rw [do_provider_credentials_fresh state0 now profileLoad home fs parse send cfg t
      hcfg htok hfresh]
    simp [map_role_credentials, hsend, hak]
  · intro rc akid hsend hak hsk
    rw [do_provider_credentials_fresh state0 now profileLoad home fs parse send cfg t
      hcfg htok hfresh]
    simp [map_role_credentials, hsend, hak, hsk]
  · intro rc akid sak hsend hak hsk hst
    rw [do_provider_credentials_fresh state0 now profileLoad home fs parse send cfg t
      hcfg htok hfresh]
    simp [map_role_credentials, hsend, hak, hsk, hst]

/-- Witness for C2: with a fresh token held, concrete exchanges missing
the payload, the access key id, the secret access key, and the session
token produce the corresponding errors, each naming one field. -/
theorem claim_C2_exchange_field_validation_witness :
    (do_provider_credentials ⟨some ⟨"A", "R", "G", "U"⟩, some ⟨"tok", 100, "G", "U"⟩⟩ 0
        none "/h" (fun _ => none) (fun _ => none) (fun _ _ _ _ => .ok none)).result
      = .error .CredentialsNotLoaded
    ∧ (do_provider_credentials ⟨some ⟨"A", "R", "G", "U"⟩, some ⟨"tok", 100, "G", "U"⟩⟩ 0
        none "/h" (fun _ => none) (fun _ => none)
        (fun _ _ _ _ => .ok (some ⟨none, some "sak", some "sess", 42⟩))).result
      = .error (.Unhandled (.RequiredConfigMissing "access_key_id"))
    ∧ (do_provider_credentials ⟨some ⟨"A", "R", "G", "U"⟩, some ⟨"tok", 100, "G", "U"⟩⟩ 0
        none "/h" (fun _ => none) (fun _ => none)
        (fun _ _ _ _ => .ok (some ⟨some "akid", none, some "sess", 42⟩))).result
      = .error (.Unhandled (.RequiredConfigMissing "secret_access_key"))
    ∧ (do_provider_credentials ⟨some ⟨"A", "R", "G", "U"⟩, some ⟨"tok", 100, "G", "U"⟩⟩ 0
        none "/h" (fun _ => none) (fun _ => none)
        (fun _ _ _ _ => .ok (some ⟨some "akid", some "sak", none, 42⟩))).result
      = .error (.Unhandled (.RequiredConfigMissing "session_token")) :=
  ⟨(claim_C2_exchange_field_validation ⟨some ⟨"A", "R", "G", "U"⟩, some ⟨"tok", 100, "G", "U"⟩⟩
      0 none "/h" (fun _ => none) (fun _ => none) (fun _ _ _ _ => .ok none)
      ⟨"A", "R", "G", "U"⟩ ⟨"tok", 100, "G", "U"⟩ rfl rfl (by decide)).1 rfl,
   (claim_C2_exchange_field_validation ⟨some ⟨"A", "R", "G", "U"⟩, some ⟨"tok", 100, "G", "U"⟩⟩
      0 none "/h" (fun _ => none) (fun _ => none)
      (fun _ _ _ _ => .ok (some ⟨none, some "sak", some "sess", 42⟩))
      ⟨"A", "R", "G", "U"⟩ ⟨"tok", 100, "G", "U"⟩ rfl rfl (by decide)).2.1
      ⟨none, some "sak", some "sess", 42⟩ rfl rfl,
   (claim_C2_exchange_field_validation ⟨some ⟨"A", "R", "G", "U"⟩, some ⟨"tok", 100, "G", "U"⟩⟩
      0 none "/h" (fun _ => none) (fun _ => none)
      (fun _ _ _ _ => .ok (some ⟨some "akid", none, some "sess", 42⟩))
      ⟨"A", "R", "G", "U"⟩ ⟨"tok", 100, "G", "U"⟩ rfl rfl (by decide)).2.2.1
      ⟨some "akid", none, some "sess", 42⟩ "akid" rfl rfl rfl,
   (claim_C2_exchange_field_validation ⟨some ⟨"A", "R", "G", "U"⟩, some ⟨"tok", 100, "G", "U"⟩⟩
      0 none "/h" (fun _ => none) (fun _ => none)
      (fun _ _ _ _ => .ok (some ⟨some "akid", some "sak", none, 42⟩))
      ⟨"A", "R", "G", "U"⟩ ⟨"tok", 100, "G", "U"⟩ rfl rfl (by decide)).2.2.2
      ⟨some "akid", some "sak", none, 42⟩ "akid" "sak" rfl rfl rfl rfl⟩

/-- C4: when config is available (already held, or loaded now) but no
valid cached token is held after dropping an expired one and the reload
from disk yields nothing, the provider returns CredentialsNotLoaded and
the outcome is independent of the send function, so no remote exchange
influences it. -/
theorem claim_C4_no_token_no_network (state0 : SSOProviderState) (now : Int)
    (profileLoad : Option ProfileSet) (home : String) (fs : String → Option String)
    (parse : String → Option CachedSSOToken) (cfg : SSOConfig)
    (hcfg : state0.sso_config = some cfg
      ∨ state0.sso_config = none ∧ load_sso_config profileLoad = .ok cfg)
    (hreval : revalidate_cached_token now state0.cached_token = none)
    (hload : load_token_file home fs parse now cfg.sso_start_url = none) :
    ∀ send send',
      do_provider_credentials state0 now profileLoad home fs parse send
        = ⟨⟨some cfg, none⟩, .error .CredentialsNotLoaded⟩
      ∧ do_provider_credentials state0 now profileLoad home fs parse send
        = do_provider_credentials state0 now profileLoad home fs parse send' := by
  intro send send'
  have h1 := do_provider_credentials_no_token state0 now profileLoad home fs parse send
    cfg hcfg hreval hload
  have h2 := do_provider_credentials_no_token state0 now profileLoad home fs parse send'
    cfg hcfg hreval hload
  exact ⟨h1, h1.trans h2.symm⟩

/-- Witness for C4: an expired held token with an empty disk cache gives
CredentialsNotLoaded and the same outcome under two different send
functions. -/
theorem claim_C4_no_token_no_network_witness :
    do_provider_credentials ⟨some ⟨"A", "R", "G", "U"⟩, some ⟨"tok", 0, "G", "U"⟩⟩ 5
      none "/h" (fun _ => none) (fun _ => none) (fun _ _ _ _ => .ok none)
      = ⟨⟨some ⟨"A", "R", "G", "U"⟩, none⟩, .error .CredentialsNotLoaded⟩
    ∧ do_provider_credentials ⟨some ⟨"A", "R", "G", "U"⟩, some ⟨"tok", 0, "G", "U"⟩⟩ 5
        none "/h" (fun _ => none) (fun _ => none) (fun _ _ _ _ => .ok none)
      = do_provider_credentials ⟨some ⟨"A", "R", "G", "U"⟩, some ⟨"tok", 0, "G", "U"⟩⟩ 5
        none "/h" (fun _ => none) (fun _ => none) (fun _ _ _ _ => .error "boom") :=
  claim_C4_no_token_no_network ⟨some ⟨"A", "R", "G", "U"⟩, some ⟨"tok", 0, "G", "U"⟩⟩ 5
    none "/h" (fun _ => none) (fun _ => none) ⟨"A", "R", "G", "U"⟩
    (Or.inl rfl) (by decide) rfl (fun _ _ _ _ => .ok none) (fun _ _ _ _ => .error "boom")

/-- C8: an exchange that succeeds with all required fields present
yields a credential whose expiration is exactly the numeric
epoch-seconds value of the response with zero subsecond part, and whose
source label is "sso". -/
theorem claim_C8_success_mapping (state0 : SSOProviderState) (now : Int)
    (profileLoad : Option ProfileSet) (home : String) (fs : String → Option String)
    (parse : String → Option CachedSSOToken)
    (send : String → String → String → String → Except SdkError (Option RoleCredentials))
    (cfg : SSOConfig) (t : CachedSSOToken) (rc : RoleCredentials)
    (akid sak sess : String)
    (hcfg : state0.sso_config = some cfg) (htok : state0.cached_token = some t)
    (hfresh : now < t.expires_at)
    (hsend : send cfg.sso_region cfg.sso_account_id cfg.sso_role_name t.access_token
      = .ok (some rc))
    (hak : rc.access_key_id = some akid)
    (hsk : rc.secret_access_key = some sak)
    (hst : rc.session_token = some sess) :
    (do_provider_credentials state0 now profileLoad home fs parse send).result
      = .ok ⟨akid, sak, some sess, some (rc.expiration, 0), "sso"⟩
    ∧ ∀ creds,
      (do_provider_credentials state0 now profileLoad home fs parse send).result
        = .ok creds →
      creds.expiry = some (rc.expiration, 0) ∧ creds.provider_name = "sso" := by
  have h1 : (do_provider_credentials state0 now profileLoad home fs parse send).result
      = .ok ⟨akid, sak, some sess, some (rc.expiration, 0), "sso"⟩ := by
    rw [do_provider_credentials_fresh state0 now profileLoad home fs parse send cfg t
      hcfg htok hfresh]
    simp [map_role_credentials, hsend, hak, hsk, hst, Credentials.new]
  refine ⟨h1, fun creds hc => ?_⟩
  rw [h1] at hc
  injection hc with h2
  rw [← h2]
  exact ⟨rfl, rfl⟩

/-- Witness for C8: a complete concrete exchange response with
expiration 1700000000 yields exactly that credential. -/
theorem claim_C8_success_mapping_witness :
    (do_provider_credentials ⟨some ⟨"A", "R", "G", "U"⟩, some ⟨"tok", 100, "G", "U"⟩⟩ 0
        none "/h" (fun _ => none) (fun _ => none)
        (fun _ _ _ _ => .ok (some ⟨some "akid", some "sak", some "sess", 1700000000⟩))).result
      = .ok ⟨"akid", "sak", some "sess", some (1700000000, 0), "sso"⟩ :=
  (claim_C8_success_mapping ⟨some ⟨"A", "R", "G", "U"⟩, some ⟨"tok", 100, "G", "U"⟩⟩ 0
    none "/h" (fun _ => none) (fun _ => none)
    (fun _ _ _ _ => .ok (some ⟨some "akid", some "sak", some "sess", 1700000000⟩))
    ⟨"A", "R", "G", "U"⟩ ⟨"tok", 100, "G", "U"⟩
    ⟨some "akid", some "sak", some "sess", 1700000000⟩ "akid" "sak" "sess"
    rfl rfl (by decide) rfl rfl rfl rfl).1

/-- C9: once the provider state holds a config, a credential request
leaves that config untouched in the resulting state, and the whole
outcome is independent of the profile loader, so the config load is
performed only when the config is absent.  Applied to the state of each
successive request, this keeps the same config for the provider
lifetime while only cached_token changes. -/
theorem claim_C9_config_immutable (state0 : SSOProviderState) (now : Int)
    (home : String) (fs : String → Option String)
    (parse : String → Option CachedSSOToken)
    (send : String → String → String → String → Except SdkError (Option RoleCredentials))
    (cfg : SSOConfig)
    (hcfg : state0.sso_config = some cfg) :
    ∀ profileLoad profileLoad',
      (do_provider_credentials state0 now profileLoad home fs parse send).state.sso_config
        = some cfg
      ∧ do_provider_credentials state0 now profileLoad home fs parse send
        = do_provider_credentials state0 now profileLoad' home fs parse send := by
  intro p p'
  constructor
  · cases htok : state0.cached_token with
    | none =>
      cases hl : load_token_file home fs parse now cfg.sso_start_url <;>
        simp [do_provider_credentials, hcfg, htok, revalidate_cached_token, hl]
    | some t =>
      by_cases hexp : t.expires_at ≤ now
      · cases hl : load_token_file home fs parse now cfg.sso_start_url <;>
          simp [do_provider_credentials, hcfg, htok, revalidate_cached_token, hexp, hl]
      · simp [do_provider_credentials, hcfg, htok, revalidate_cached_token, hexp]
  · cases htok : state0.cached_token with
    | none =>
      cases hl : load_token_file home fs parse now cfg.sso_start_url <;>
        simp [do_provider_credentials, hcfg, htok, revalidate_cached_token, hl]
    | some t =>
      by_cases hexp : t.expires_at ≤ now
      · cases hl : load_token_file home fs parse now cfg.sso_start_url <;>
          simp [do_provider_credentials, hcfg, htok, revalidate_cached_token, hexp, hl]
      · simp [do_provider_credentials, hcfg, htok, revalidate_cached_token, hexp]

/-- Witness for C9: with a config already held and no token anywhere,
the resulting state keeps the config and two different profile loaders
give the same outcome. -/
theorem claim_C9_config_immutable_witness :
    (do_provider_credentials ⟨some ⟨"A", "R", "G", "U"⟩, none⟩ 0 none "/h"
        (fun _ => none) (fun _ => none) (fun _ _ _ _ => .ok none)).state.sso_config
      = some ⟨"A", "R", "G", "U"⟩
    ∧ do_provider_credentials ⟨some ⟨"A", "R", "G", "U"⟩, none⟩ 0 none "/h"
        (fun _ => none) (fun _ => none) (fun _ _ _ _ => .ok none)
      = do_provider_credentials ⟨some ⟨"A", "R", "G", "U"⟩, none⟩ 0
        (some ⟨[("sso_account_id", "OTHER")]⟩) "/h"
        (fun _ => none) (fun _ => none) (fun _ _ _ _ => .ok none) :=
  claim_C9_config_immutable ⟨some ⟨"A", "R", "G", "U"⟩, none⟩ 0 "/h"
    (fun _ => none) (fun _ => none) (fun _ _ _ _ => .ok none) ⟨"A", "R", "G", "U"⟩
    rfl none (some ⟨[("sso_account_id", "OTHER")]⟩)

/-- Witness for C10: the description method panics on a concrete error
value and Display yields the fixed message for it. -/
theorem claim_C10_description_panics_witness :
    SSOProviderError.description (.RequiredConfigMissing "access_key_id")
      = PanicOr.panicked
    ∧ ∃ s, SSOProviderError.display (.RequiredConfigMissing "access_key_id")
      = PanicOr.ok s :=
  claim_C10_description_panics (.RequiredConfigMissing "access_key_id")
